import Mathlib

/-!
Verification of the route-to-climate resolution pipeline and the surface-physics
derivation engine of the smd-simulation repository.

The TypeScript sources are embedded shallowly:

* Machine floating-point numbers are modelled as rationals (`ℚ`); every formula
  of the source is a polynomial or rational expression, so the rational model
  computes the same values the float code computes up to rounding.
* Timestamp strings are modelled structurally: `Timestamp` carries the calendar
  date (the part that `format(parseISO ts, "yyyy-MM-dd")` extracts) and the
  remaining time-of-day text.  `format(parseISO ts, "yyyyMMdd")` followed by
  `parseInt` is modelled by `dateInt`.
* The NASA POWER response object `properties.parameter` is modelled by
  `ApiResponse`: each parameter is an optional per-date mapping, `none`
  standing for an absent key.  A failed request (non-ok status, malformed body,
  missing `properties.parameter`) is modelled by the oracle returning `none`.
* The ambient `Math.random()` draws of the mock-data fallback are modelled by
  an injected generator argument.
* JavaScript `a || b` on numbers falls back when `a` is absent or `0` (falsy);
  this is modelled exactly by `jsOr`.
* Division in `ℚ` totalises `x / 0` as `0`; the one unguarded division of the
  source (`calculateSurfaceTemperature`) additionally gets a checked variant
  `calculateSurfaceTemperatureChecked` whose `none` branch marks the
  division-by-zero case.
-/

namespace Climate

/-- Calendar date, the part of an ISO-8601 timestamp that
`format(parseISO ts, "yyyy-MM-dd")` extracts. -/
structure Date where
  y : ℕ
  m : ℕ
  d : ℕ
deriving DecidableEq

/-- ISO-8601 timestamp, split into its calendar date and the remaining
time-of-day text. -/
structure Timestamp where
  date : Date
  time : String
deriving DecidableEq

/-- GPSPoint of src/types: timestamp plus coordinates. -/
structure GPSPoint where
  timestamp : Timestamp
  latitude : ℚ
  longitude : ℚ
deriving DecidableEq

/-- ClimateData of src/types: one resolved climate record per daily point. -/
structure ClimateData where
  date : Date
  latitude : ℚ
  longitude : ℚ
  temperature : ℚ
  maxTemperature : ℚ
  solarRadiation : ℚ
  humidity : ℚ
  uvIndex : ℚ
deriving DecidableEq

/-- SurfaceProperties of src/types. -/
structure SurfaceProperties where
  albedo : ℚ
  emissivity : ℚ
  materialType : String
deriving DecidableEq

/-- Result record of calculateEMC: average and peak equilibrium moisture
content. -/
structure EMC where
  average : ℚ
  peak : ℚ
deriving DecidableEq

/-- Three-tier risk level. -/
inductive RiskLevel where
  | Low
  | Medium
  | High
deriving DecidableEq

/-- RiskAssessment of src/types. -/
structure RiskAssessment where
  crackingRisk : RiskLevel
  agingRate : ℚ
  moistureStress : RiskLevel
deriving DecidableEq

/-- AnalysisResult of src/types. -/
structure AnalysisResult where
  date : Date
  latitude : ℚ
  longitude : ℚ
  surfaceTemperature : ℚ
  emcAverage : ℚ
  emcPeak : ℚ
  cumulativeUV : ℚ
  riskAssessment : RiskAssessment
  rawClimateData : ClimateData
deriving DecidableEq

/-- AnalysisConfig of src/types; the aggregation level is kept as its label. -/
structure AnalysisConfig where
  startDate : Date
  endDate : Date
  surfaceProperties : SurfaceProperties
  aggregationLevel : String
deriving DecidableEq

/-! ### Surface Physics Engine (ClimateCalculations) -/

/-- Stefan-Boltzmann constant as used by the source, 5.67e-8. -/
def sigma : ℚ := 5.67e-8

/-- calculateSurfaceTemperature of ClimateCalculations: absorbed radiation
divided by (emissivity * sigma * 20), scaled by 0.1 and added to the air
temperature.  The division is unguarded in the source; in `ℚ` a zero divisor
makes the quotient 0. -/
def calculateSurfaceTemperature (airTemp solarRadiation : ℚ)
    (properties : SurfaceProperties) : ℚ :=
  let absorbedRadiation := solarRadiation * (1 - properties.albedo)
  let radiationEffect := absorbedRadiation / (properties.emissivity * sigma * 20)
  airTemp + radiationEffect * 0.1

/-- Checked variant of `calculateSurfaceTemperature`: the `none` branch is the
division-guard error branch, taken exactly when the divisor
emissivity * sigma * 20 is zero. -/
def calculateSurfaceTemperatureChecked (airTemp solarRadiation : ℚ)
    (properties : SurfaceProperties) : Option ℚ :=
  if properties.emissivity * sigma * 20 = 0 then none
  else some (calculateSurfaceTemperature airTemp solarRadiation properties)

/-- calculateEMC of ClimateCalculations: humidity clamped at 95, Kay-style
rational formula for the average, temperature-corrected peak, both floored
at 0. -/
def calculateEMC (temperature humidity : ℚ) : EMC :=
  let rh := min humidity 95
  let average := (330 + 0.452 * rh + 0.00415 * rh * rh) /
    (100 + 1.27 * rh + 0.0135 * rh * rh)
  let tempFactor := 1 + (temperature - 20) * 0.02
  let peak := average * tempFactor
  ⟨max 0 average, max 0 peak⟩

/-- calculateCumulativeUV of ClimateCalculations; the source default for hours
is 24 and every caller uses it. -/
def calculateCumulativeUV (uvIndex hours : ℚ) : ℚ :=
  uvIndex * hours * 0.1

/-- assessRisks of ClimateCalculations: strict thresholds for cracking risk and
moisture stress, aging rate floored at 1. -/
def assessRisks (surfaceTemp emcAverage emcPeak cumulativeUV : ℚ) :
    RiskAssessment :=
  let crackingRisk :=
    if surfaceTemp > 60 then RiskLevel.High
    else if surfaceTemp > 40 then RiskLevel.Medium
    else RiskLevel.Low
  let emcVariation := |emcPeak - emcAverage|
  let moistureStress :=
    if emcVariation > 5 then RiskLevel.High
    else if emcVariation > 3 then RiskLevel.Medium
    else RiskLevel.Low
  let agingRate := 1 + cumulativeUV / 100 + (surfaceTemp - 20) * 0.05
  ⟨crackingRisk, max 1 agingRate, moistureStress⟩

/-- processClimateData of ClimateCalculations: one AnalysisResult per
ClimateData record, derived through the four physics functions, the raw record
attached. -/
def processClimateData (climateData : List ClimateData)
    (surfaceProperties : SurfaceProperties) : List AnalysisResult :=
  climateData.map (fun data =>
    let surfaceTemperature :=
      calculateSurfaceTemperature data.temperature data.solarRadiation
        surfaceProperties
    let emc := calculateEMC data.temperature data.humidity
    let cumulativeUV := calculateCumulativeUV data.uvIndex 24
    let riskAssessment :=
      assessRisks surfaceTemperature emc.average emc.peak cumulativeUV
    { date := data.date
      latitude := data.latitude
      longitude := data.longitude
      surfaceTemperature := surfaceTemperature
      emcAverage := emc.average
      emcPeak := emc.peak
      cumulativeUV := cumulativeUV
      riskAssessment := riskAssessment
      rawClimateData := data })

/-! ### Distance and proximity clustering (DataProcessor) -/

/-- Default point used to totalise list indexing; the source only ever indexes
in range. -/
def defaultPoint : GPSPoint := ⟨⟨⟨0, 0, 0⟩, ""⟩, 0, 0⟩

/-- Squared value of calculateDistance of DataProcessor.  The source computes
`sqrt ((lat2-lat1)^2 + (lon2-lon1)^2)` and only ever compares it against a
threshold; `sqrt d < t` is equivalent to `d < t^2` for nonnegative `t`
(see `sqrt_lt_iff_sq`), so the clustering below compares squares. -/
def calculateDistanceSq (lat1 lon1 lat2 lon2 : ℚ) : ℚ :=
  (lat2 - lat1) ^ 2 + (lon2 - lon1) ^ 2

/-- Squared distance between the points at indices `i` and `j`. -/
def distIdxSq (points : List GPSPoint) (i j : ℕ) : ℚ :=
  calculateDistanceSq (points.getD i defaultPoint).latitude
    (points.getD i defaultPoint).longitude
    (points.getD j defaultPoint).latitude
    (points.getD j defaultPoint).longitude

/-- One iteration of the outer loop of groupPointsByProximity: skip an already
processed seed index, otherwise open a new group with the seed and every later
unprocessed index strictly within the threshold of the seed. -/
def outerStep (points : List GPSPoint) (threshold : ℚ)
    (st : List (List ℕ) × List ℕ) (i : ℕ) : List (List ℕ) × List ℕ :=
  if i ∈ st.2 then st
  else
    let js := (List.range points.length).filter
      (fun j => decide (i < j) && decide (j ∉ st.2) &&
        decide (distIdxSq points i j < threshold ^ 2))
    (st.1 ++ [i :: js], st.2 ++ i :: js)

/-- Index-level groupPointsByProximity of DataProcessor: the greedy seeded
single-pass grouping over point indices. -/
def groupIndices (points : List GPSPoint) (threshold : ℚ) : List (List ℕ) :=
  ((List.range points.length).foldl (outerStep points threshold) ([], [])).1

/-- groupPointsByProximity of DataProcessor: the index groups read back as
point lists. -/
def groupPointsByProximity (points : List GPSPoint) (threshold : ℚ) :
    List (List GPSPoint) :=
  (groupIndices points threshold).map
    (fun g => g.map (fun i => points.getD i defaultPoint))

/-- calculateCenterPoint of DataProcessor: mean latitude and mean longitude of
a group. -/
def meanLat (points : List GPSPoint) : ℚ :=
  (points.map (fun p => p.latitude)).sum / points.length

/-- Mean longitude of a group, the second component of calculateCenterPoint. -/
def meanLng (points : List GPSPoint) : ℚ :=
  (points.map (fun p => p.longitude)).sum / points.length

/-- calculateCenterPoint of DataProcessor, as a latitude-longitude pair. -/
def calculateCenterPoint (points : List GPSPoint) : ℚ × ℚ :=
  (meanLat points, meanLng points)

/-! ### Daily aggregation (DataProcessor.aggregateByDay) -/

/-- Day key of a point: the calendar-date part of its timestamp, the value
`format(parseISO(point.timestamp), "yyyy-MM-dd")` computes. -/
def dayKey (p : GPSPoint) : Date := p.timestamp.date

/-- One step of the grouping loop of aggregateByDay: push the point into the
entry of its day if one exists, otherwise append a new entry.  This mirrors
the JavaScript `Map` (unique keys, insertion order preserved). -/
def insertByDay : List (Date × List GPSPoint) → GPSPoint →
    List (Date × List GPSPoint)
  | [], p => [(dayKey p, [p])]
  | g :: gs, p =>
    if g.1 = dayKey p then (g.1, g.2 ++ [p]) :: gs
    else g :: insertByDay gs p

/-- The per-day grouping structure of aggregateByDay after all points are
inserted. -/
def dailyGroups (points : List GPSPoint) : List (Date × List GPSPoint) :=
  points.foldl insertByDay []

/-- Time-of-day text of every aggregated point. -/
def noonTime : String := "T12:00:00Z"

/-- Lookup of the member list stored under a day key; with duplicate-free keys
this is the unique entry of that day, and `[]` when no entry exists.  Auxiliary
to the aggregation proofs. -/
def groupFor (G : List (Date × List GPSPoint)) (d : Date) : List GPSPoint :=
  ((G.filter (fun g => g.1 = d)).map Prod.snd).flatten

/-- aggregateByDay of DataProcessor: one representative point per day group,
at the mean coordinates, timestamped at midday of that date. -/
def aggregateByDay (points : List GPSPoint) : List GPSPoint :=
  (dailyGroups points).map (fun g =>
    { timestamp := ⟨g.1, noonTime⟩
      latitude := meanLat g.2
      longitude := meanLng g.2 })

/-! ### Climate resolver (DataProcessor.fetchClimateData) -/

/-- Integer form of a date, the value of `parseInt(format(ts, "yyyyMMdd"))`
for four-digit years. -/
def dateInt (d : Date) : ℕ := d.y * 10000 + d.m * 100 + d.d

/-- Minimum requested date of a group, `Math.min` over the member dates. -/
def startDateOf (group : List GPSPoint) : ℕ :=
  ((group.map (fun p => dateInt (dayKey p))).min?).getD 0

/-- Maximum requested date of a group, `Math.max` over the member dates. -/
def endDateOf (group : List GPSPoint) : ℕ :=
  ((group.map (fun p => dateInt (dayKey p))).max?).getD 0

/-- Successful response body of the provider: the per-parameter, per-date
mapping `properties.parameter`.  A parameter field is `none` when the response
carries no object for it; a date lookup is `none` when that date key is
absent. -/
structure ApiResponse where
  T2M : Option (Date → Option ℚ)
  T2M_MAX : Option (Date → Option ℚ)
  RH2M : Option (Date → Option ℚ)
  ALLSKY_SFC_SW_DWN : Option (Date → Option ℚ)
  ALLSKY_SFC_UVA : Option (Date → Option ℚ)
  ALLSKY_SFC_UVB : Option (Date → Option ℚ)

/-- Provider oracle: latitude, longitude, start and end date to either a
successful response or `none`, which models a failed request (non-ok status,
malformed body, or missing `properties.parameter`). -/
def Api : Type := ℚ → ℚ → ℕ → ℕ → Option ApiResponse

/-- JavaScript `a || b` on an optionally absent number: the fallback is used
when the value is absent or equal to 0 (falsy). -/
def jsOr (v : Option ℚ) (fallback : ℚ) : ℚ :=
  match v with
  | none => fallback
  | some x => if x = 0 then fallback else x

/-- Optional-chained date lookup `param?.[dateKey]` on a response field. -/
def lookupParam (field : Option (Date → Option ℚ)) (d : Date) : Option ℚ :=
  field.bind (fun f => f d)

/-- calculateUVIndex of DataProcessor: total irradiance over 25, clamped to
the range 0 to 11. -/
def calculateUVIndex (uva uvb : ℚ) : ℚ :=
  min 11 (max 0 ((uva + uvb) / 25))

/-- Per-member record construction of fetchClimateData on a successful
response: `none` when the T2M object or the T2M value for the member date is
absent (the member is dropped); otherwise the record with the falsy-or
fallbacks of the source. -/
def recordFor (resp : ApiResponse) (p : GPSPoint) : Option ClimateData :=
  match resp.T2M with
  | none => none
  | some t2m =>
    match t2m (dayKey p) with
    | none => none
    | some temp => some
      { date := dayKey p
        latitude := p.latitude
        longitude := p.longitude
        temperature := temp
        maxTemperature := jsOr (lookupParam resp.T2M_MAX (dayKey p)) (temp + 5)
        solarRadiation := jsOr (lookupParam resp.ALLSKY_SFC_SW_DWN (dayKey p)) 200
        humidity := jsOr (lookupParam resp.RH2M (dayKey p)) 50
        uvIndex := calculateUVIndex
          (jsOr (lookupParam resp.ALLSKY_SFC_UVA (dayKey p)) 0)
          (jsOr (lookupParam resp.ALLSKY_SFC_UVB (dayKey p)) 0) }

/-- Five uniform draws from the ambient random generator, injected so that the
mock fallback is deterministic in the model. -/
structure RandomDraws where
  r1 : ℚ
  r2 : ℚ
  r3 : ℚ
  r4 : ℚ
  r5 : ℚ

/-- generateMockClimateData of DataProcessor with the random draws injected. -/
def generateMockClimateData (draws : GPSPoint → RandomDraws) (p : GPSPoint) :
    ClimateData :=
  let r := draws p
  { date := dayKey p
    latitude := p.latitude
    longitude := p.longitude
    temperature := 20 + r.r1 * 25
    maxTemperature := 25 + r.r2 * 30
    solarRadiation := 100 + r.r3 * 400
    humidity := 30 + r.r4 * 50
    uvIndex := 1 + r.r5 * 10 }

/-- Per-cluster body of fetchClimateData: one provider call at the group
center over the group date span; on success each member is mapped through
`recordFor` (members without a T2M value are dropped), on failure every member
gets a mock record. -/
def processGroup (api : Api) (draws : GPSPoint → RandomDraws)
    (group : List GPSPoint) : List ClimateData :=
  match api (calculateCenterPoint group).1 (calculateCenterPoint group).2
      (startDateOf group) (endDateOf group) with
  | some resp => group.filterMap (recordFor resp)
  | none => group.map (generateMockClimateData draws)

/-- fetchClimateData of DataProcessor: cluster the points at threshold 0.1 and
concatenate the per-cluster results in order. -/
def fetchClimateData (api : Api) (draws : GPSPoint → RandomDraws)
    (points : List GPSPoint) : List ClimateData :=
  (groupPointsByProximity points 0.1).foldl
    (fun results group => results ++ processGroup api draws group) []

/-! ### Application layer (App.tsx) -/

/-- Pipeline-relevant part of the App component state.  The field
providerCalls counts issued provider requests: it is incremented once per
cluster by the upload path and nowhere else, so an unchanged counter witnesses
that no provider call was made. -/
structure AppState where
  gpsData : List GPSPoint
  climateData : List ClimateData
  analysisResults : List AnalysisResult
  config : AnalysisConfig
  providerCalls : ℕ

/-- Core of handleFileSelect of App.tsx: aggregate, resolve (one provider
request per cluster) and derive, storing each stage. -/
def handleFileSelect (api : Api) (draws : GPSPoint → RandomDraws)
    (s : AppState) (gpsPoints : List GPSPoint) : AppState :=
  let aggregated := aggregateByDay gpsPoints
  let climate := fetchClimateData api draws aggregated
  { s with
    gpsData := aggregated
    climateData := climate
    analysisResults := processClimateData climate s.config.surfaceProperties
    providerCalls :=
      s.providerCalls + (groupPointsByProximity aggregated 0.1).length }

/-- handleConfigChange of App.tsx: store the new configuration and, when
climate records exist, re-derive the analysis results from the stored records
alone. -/
def handleConfigChange (s : AppState) (newConfig : AnalysisConfig) : AppState :=
  let s1 := { s with config := newConfig }
  if s.climateData.length > 0 then
    { s1 with analysisResults :=
        processClimateData s.climateData newConfig.surfaceProperties }
  else s1

/-! ### Concrete inputs used by witnesses and counterexamples -/

/-- Sample date. -/
def d0 : Date := ⟨2024, 1, 1⟩

/-- Sample point. -/
def p0 : GPSPoint := ⟨⟨d0, "T00:00:00Z"⟩, 10, 20⟩

/-- Deterministic random draws. -/
def draws0 : GPSPoint → RandomDraws := fun _ => ⟨0, 0, 0, 0, 0⟩

/-- Successful response whose T2M mapping carries no date keys. -/
def respNoT2M : ApiResponse := ⟨some (fun _ => none), none, none, none, none, none⟩

/-- Provider that always answers `respNoT2M`. -/
def apiNoT2M : Api := fun _ _ _ _ => some respNoT2M

/-- Successful response with every parameter present and nonzero on every
date. -/
def respFull : ApiResponse :=
  ⟨some (fun _ => some 25), some (fun _ => some 30), some (fun _ => some 60),
    some (fun _ => some 300), some (fun _ => some 100), some (fun _ => some 25)⟩

/-- Provider that always answers `respFull`. -/
def apiFull : Api := fun _ _ _ _ => some respFull

/-- Successful response where the shortwave irradiance value is present and
equal to 0. -/
def respZeroSW : ApiResponse :=
  ⟨some (fun _ => some 10), none, none, some (fun _ => some 0), none, none⟩

/-- Provider that always answers `respZeroSW`. -/
def apiZeroSW : Api := fun _ _ _ _ => some respZeroSW

/-- Origin point. -/
def pUnit0 : GPSPoint := ⟨⟨d0, "T00:00:00Z"⟩, 0, 0⟩

/-- Point at planar distance exactly 1 from the origin. -/
def pUnit1 : GPSPoint := ⟨⟨d0, "T00:00:00Z"⟩, 0, 1⟩

/-- Wood preset of the configuration panel. -/
def wood : SurfaceProperties := ⟨0.25, 0.90, "wood"⟩

/-- Metal preset of the configuration panel. -/
def metal : SurfaceProperties := ⟨0.60, 0.20, "metal"⟩

/-- Wood albedo with emissivity forced to the accepted boundary value 0. -/
def woodZeroEmissivity : SurfaceProperties := ⟨0.25, 0, "wood"⟩

/-- Sample configuration with the wood preset. -/
def config0 : AnalysisConfig := ⟨d0, d0, wood, "daily"⟩

/-- Sample configuration with the metal preset. -/
def config1 : AnalysisConfig := ⟨d0, d0, metal, "daily"⟩

/-- Sample resolved climate record. -/
def climate0 : ClimateData := ⟨d0, 10, 20, 25, 30, 300, 60, 5⟩

/-- Application state holding one resolved climate record. -/
def state0 : AppState := ⟨[], [climate0], [], config0, 3⟩

/-! ### Clustering lemmas -/

/-- Bridging fact: the source compares `sqrt ((lat2-lat1)^2 + (lon2-lon1)^2)`
against a threshold; against a nonnegative threshold this is the same as
comparing the squared distance against the squared threshold, which is what
the embedding does. -/
lemma sqrt_lt_iff_sq (dsq t : ℚ) (hd : 0 ≤ dsq) (ht : 0 ≤ t) :
    Real.sqrt (dsq : ℝ) < (t : ℝ) ↔ dsq < t ^ 2 := by
  rcases ht.lt_or_eq with h | h
  · rw [Real.sqrt_lt' (by exact_mod_cast h)]
    exact_mod_cast Iff.rfl
  · rw [← h]
    constructor
    · intro hlt
      exact absurd hlt (not_lt.mpr (by exact_mod_cast Real.sqrt_nonneg _))
    · intro hlt
      nlinarith

/-- Membership in the inner-scan filter of the clustering loop. -/
lemma mem_scanFilter_iff (points : List GPSPoint) (t : ℚ) (P : List ℕ)
    (i j : ℕ) :
    j ∈ (List.range points.length).filter
      (fun j => decide (i < j) && decide (j ∉ P) &&
        decide (distIdxSq points i j < t ^ 2)) ↔
    j < points.length ∧ i < j ∧ j ∉ P ∧ distIdxSq points i j < t ^ 2 := by
  simp [List.mem_filter, List.mem_range, and_assoc]

/-- Combined invariant of the outer clustering loop: the processed list is the
concatenation of the groups, has no duplicates, stays within the index range,
grows monotonically, absorbs every index folded over, and every group is a
seed followed by later indices strictly within the threshold of that seed. -/
lemma foldl_outerStep_invariant (points : List GPSPoint) (t : ℚ) :
    ∀ (l : List ℕ) (G : List (List ℕ)) (P : List ℕ),
      (∀ x ∈ l, x < points.length) →
      G.flatten = P → P.Nodup → (∀ x ∈ P, x < points.length) →
      (∀ g ∈ G, ∃ a bs, g = a :: bs ∧
        ∀ j ∈ bs, a < j ∧ distIdxSq points a j < t ^ 2) →
      ((l.foldl (outerStep points t) (G, P)).1.flatten =
          (l.foldl (outerStep points t) (G, P)).2 ∧
        (l.foldl (outerStep points t) (G, P)).2.Nodup ∧
        (∀ x ∈ (l.foldl (outerStep points t) (G, P)).2, x < points.length) ∧
        (∀ x ∈ P, x ∈ (l.foldl (outerStep points t) (G, P)).2) ∧
        (∀ x ∈ l, x ∈ (l.foldl (outerStep points t) (G, P)).2) ∧
        (∀ g ∈ (l.foldl (outerStep points t) (G, P)).1, ∃ a bs, g = a :: bs ∧
          ∀ j ∈ bs, a < j ∧ distIdxSq points a j < t ^ 2)) := by
  intro l
  induction l with
  | nil =>
    intro G P _ h1 h2 h3 h4
    exact ⟨h1, h2, h3, fun x hx => hx, by simp, h4⟩
  | cons i l ih =>
    intro G P hl h1 h2 h3 h4
    rw [List.foldl_cons]
    by_cases hi : i ∈ P
    · rw [show outerStep points t (G, P) i = (G, P) from if_pos hi]
      obtain ⟨g1, g2, g3, g4, g5, g6⟩ := ih G P
        (fun x hx => hl x (List.mem_cons_of_mem _ hx)) h1 h2 h3 h4
      refine ⟨g1, g2, g3, g4, ?_, g6⟩
      intro x hx
      rcases List.mem_cons.mp hx with rfl | hx
      · exact g4 x hi
      · exact g5 x hx
    · rw [show outerStep points t (G, P) i =
        (G ++ [i :: (List.range points.length).filter
          (fun j => decide (i < j) && decide (j ∉ P) &&
            decide (distIdxSq points i j < t ^ 2))],
         P ++ i :: (List.range points.length).filter
          (fun j => decide (i < j) && decide (j ∉ P) &&
            decide (distIdxSq points i j < t ^ 2))) from if_neg hi]
      set js := (List.range points.length).filter
        (fun j => decide (i < j) && decide (j ∉ P) &&
          decide (distIdxSq points i j < t ^ 2)) with hjsdef
      have hjs : ∀ j, j ∈ js ↔
          j < points.length ∧ i < j ∧ j ∉ P ∧ distIdxSq points i j < t ^ 2 :=
        fun j => by rw [hjsdef]; exact mem_scanFilter_iff points t P i j
      have hnJ : js.Nodup := by
        rw [hjsdef]; exact (List.nodup_range _).filter _
      have hiNotJs : i ∉ js := fun hmem => Nat.lt_irrefl i ((hjs i).mp hmem).2.1
      have hN2 : (P ++ i :: js).Nodup := by
        rw [List.nodup_append]
        refine ⟨h2, List.nodup_cons.mpr ⟨hiNotJs, hnJ⟩, ?_⟩
        intro x hx hmem
        rcases List.mem_cons.mp hmem with rfl | hmem
        · exact hi hx
        · exact ((hjs x).mp hmem).2.2.1 hx
      have hflat : (G ++ [i :: js]).flatten = P ++ i :: js := by
        simp [h1]
      have hbound : ∀ x ∈ P ++ i :: js, x < points.length := by
        intro x hx
        rcases List.mem_append.mp hx with hx | hx
        · exact h3 x hx
        · rcases List.mem_cons.mp hx with rfl | hx
          · exact hl x (List.mem_cons_self _ _)
          · exact ((hjs x).mp hx).1
      have hgroups : ∀ g ∈ G ++ [i :: js], ∃ a bs, g = a :: bs ∧
          ∀ j ∈ bs, a < j ∧ distIdxSq points a j < t ^ 2 := by
        intro g hg
        rcases List.mem_append.mp hg with hg | hg
        · exact h4 g hg
        · rw [List.mem_singleton.mp hg]
          exact ⟨i, js, rfl, fun j hj =>
            ⟨((hjs j).mp hj).2.1, ((hjs j).mp hj).2.2.2⟩⟩
      obtain ⟨g1, g2, g3, g4, g5, g6⟩ := ih (G ++ [i :: js]) (P ++ i :: js)
        (fun x hx => hl x (List.mem_cons_of_mem _ hx)) hflat hN2 hbound hgroups
      refine ⟨g1, g2, g3, ?_, ?_, g6⟩
      · intro x hx
        exact g4 x (List.mem_append_left _ hx)
      · intro x hx
        rcases List.mem_cons.mp hx with rfl | hx
        · exact g4 x (List.mem_append_right _ (List.mem_cons_self _ _))
        · exact g5 x hx

/-- The flattened index groups are a permutation of the index range: the
greedy clustering partitions the input indices. -/
lemma groupIndices_flatten_perm (points : List GPSPoint) (t : ℚ) :
    (groupIndices points t).flatten.Perm (List.range points.length) := by
  obtain ⟨h1, h2, h3, _, h5, _⟩ := foldl_outerStep_invariant points t
    (List.range points.length) [] [] (fun x hx => List.mem_range.mp hx) rfl
    List.nodup_nil (by simp) (by simp)
  rw [groupIndices, h1]
  refine (List.perm_ext_iff_of_nodup h2 (List.nodup_range _)).mpr ?_
  intro a
  constructor
  · intro ha
    exact List.mem_range.mpr (h3 a ha)
  · intro ha
    exact h5 a ha

/-! ### Aggregation lemmas -/

/-- Unfolding of insertByDay on an empty grouping. -/
lemma insertByDay_nil (p : GPSPoint) : insertByDay [] p = [(dayKey p, [p])] := rfl

/-- Unfolding of insertByDay on a nonempty grouping. -/
lemma insertByDay_cons (a : Date) (bs : List GPSPoint)
    (gs : List (Date × List GPSPoint)) (p : GPSPoint) :
    insertByDay ((a, bs) :: gs) p =
      if a = dayKey p then (a, bs ++ [p]) :: gs
      else (a, bs) :: insertByDay gs p := rfl

/-- Unfolding of groupFor on a nonempty grouping. -/
lemma groupFor_cons (a : Date) (bs : List GPSPoint)
    (gs : List (Date × List GPSPoint)) (d : Date) :
    groupFor ((a, bs) :: gs) d =
      (if a = d then bs else []) ++ groupFor gs d := by
  by_cases h : a = d <;> simp [groupFor, h]

/-- A day key with no entry stores the empty member list. -/
lemma groupFor_eq_nil (G : List (Date × List GPSPoint)) (d : Date)
    (h : d ∉ G.map Prod.fst) : groupFor G d = [] := by
  induction G with
  | nil => rfl
  | cons g gs ih =>
    obtain ⟨a, bs⟩ := g
    rw [List.map_cons] at h
    rw [groupFor_cons, if_neg (fun he => h (List.mem_cons.mpr (Or.inl he.symm))),
      ih (fun hm => h (List.mem_cons.mpr (Or.inr hm)))]
    rfl

/-- With duplicate-free keys, groupFor retrieves exactly the stored entry. -/
lemma groupFor_entry {G : List (Date × List GPSPoint)} {d : Date}
    {ps : List GPSPoint} (hN : (G.map Prod.fst).Nodup) (h : (d, ps) ∈ G) :
    groupFor G d = ps := by
  induction G with
  | nil => cases h
  | cons g gs ih =>
    obtain ⟨a, bs⟩ := g
    rw [List.map_cons, List.nodup_cons] at hN
    rcases List.mem_cons.mp h with he | he
    · injection he with h1 h2
      subst h1
      subst h2
      rw [groupFor_cons, if_pos rfl, groupFor_eq_nil gs d hN.1,
        List.append_nil]
    · have hda : a ≠ d := by
        intro hc
        refine hN.1 ?_
        rw [show ((a, bs).1 : Date) = a from rfl, hc]
        exact List.mem_map_of_mem Prod.fst he
      rw [groupFor_cons, if_neg hda, ih hN.2 he, List.nil_append]

/-- Keys after one insertion: unchanged when the day already has an entry,
the new day appended otherwise. -/
lemma insertByDay_keys (G : List (Date × List GPSPoint)) (p : GPSPoint) :
    (insertByDay G p).map Prod.fst =
      if dayKey p ∈ G.map Prod.fst then G.map Prod.fst
      else G.map Prod.fst ++ [dayKey p] := by
  induction G with
  | nil => simp [insertByDay_nil]
  | cons g gs ih =>
    obtain ⟨a, bs⟩ := g
    rw [insertByDay_cons]
    by_cases h : a = dayKey p
    · rw [if_pos h]
      have hmem : dayKey p ∈ ((a, bs) :: gs).map Prod.fst := by
        rw [List.map_cons]
        exact List.mem_cons.mpr (Or.inl h.symm)
      rw [if_pos hmem]
      simp
    · rw [if_neg h, List.map_cons, List.map_cons, ih]
      by_cases hm : dayKey p ∈ gs.map Prod.fst
      · rw [if_pos hm, if_pos (List.mem_cons_of_mem _ hm)]
      · have hnc : dayKey p ∉ (a, bs).1 :: gs.map Prod.fst := by
          intro hc
          rcases List.mem_cons.mp hc with he | he
          · exact h he.symm
          · exact hm he
        rw [if_neg hm, if_neg hnc, List.cons_append]

/-- Member lists after one insertion: the point is appended to the entry of
its own day and every other entry is unchanged. -/
lemma insertByDay_groupFor (G : List (Date × List GPSPoint)) (p : GPSPoint)
    (d : Date) (hN : (G.map Prod.fst).Nodup) :
    groupFor (insertByDay G p) d =
      groupFor G d ++ (if dayKey p = d then [p] else []) := by
  induction G with
  | nil =>
    rw [insertByDay_nil, groupFor_cons]
    by_cases h : dayKey p = d
    · simp [groupFor, h]
    · simp [groupFor, h]
  | cons g gs ih =>
    obtain ⟨a, bs⟩ := g
    rw [List.map_cons, List.nodup_cons] at hN
    rw [insertByDay_cons]
    by_cases h : a = dayKey p
    · rw [if_pos h, groupFor_cons, groupFor_cons]
      by_cases hd : a = d
      · have hpd : dayKey p = d := h ▸ hd
        rw [if_pos hd, if_pos hd, if_pos hpd, groupFor_eq_nil gs d (hd ▸ hN.1)]
        simp
      · have hpd : dayKey p ≠ d := fun he => hd (h.trans he)
        rw [if_neg hd, if_neg hd, if_neg hpd]
        simp
    · rw [if_neg h, groupFor_cons, groupFor_cons, ih hN.2]
      by_cases hd : a = d
      · rw [if_pos hd]
        simp
      · rw [if_neg hd]
        simp

/-- Combined invariant of the grouping fold of aggregateByDay: keys stay
duplicate-free, a day is present exactly when some processed point has it, and
each entry stores exactly the points of its day in input order. -/
lemma dailyGroups_fold (pts : List GPSPoint) :
    ∀ G : List (Date × List GPSPoint), (G.map Prod.fst).Nodup →
      (((pts.foldl insertByDay G).map Prod.fst).Nodup ∧
        (∀ d, d ∈ (pts.foldl insertByDay G).map Prod.fst ↔
          d ∈ G.map Prod.fst ∨ d ∈ pts.map dayKey) ∧
        (∀ d, groupFor (pts.foldl insertByDay G) d =
          groupFor G d ++ pts.filter (fun p => dayKey p = d))) := by
  induction pts with
  | nil =>
    intro G hN
    exact ⟨hN, fun d => by simp, fun d => by simp⟩
  | cons p pts ih =>
    intro G hN
    have hNins : ((insertByDay G p).map Prod.fst).Nodup := by
      rw [insertByDay_keys]
      by_cases hm : dayKey p ∈ G.map Prod.fst
      · rw [if_pos hm]
        exact hN
      · rw [if_neg hm]
        refine List.Nodup.append hN (List.nodup_singleton _) ?_
        intro x hx hx1
        rw [List.mem_singleton] at hx1
        exact hm (hx1 ▸ hx)
    obtain ⟨g1, g2, g3⟩ := ih (insertByDay G p) hNins
    rw [List.foldl_cons]
    refine ⟨g1, ?_, ?_⟩
    · intro d
      rw [g2 d]
      have hkey : d ∈ (insertByDay G p).map Prod.fst ↔
          d ∈ G.map Prod.fst ∨ d = dayKey p := by
        rw [insertByDay_keys]
        by_cases hm : dayKey p ∈ G.map Prod.fst
        · rw [if_pos hm]
          constructor
          · exact Or.inl
          · rintro (h | h)
            · exact h
            · exact h ▸ hm
        · rw [if_neg hm]
          simp
      rw [hkey, List.map_cons]
      simp [or_assoc]
    · intro d
      rw [g3 d, insertByDay_groupFor G p d hN]
      by_cases hp : dayKey p = d
      · simp [List.filter_cons, hp]
      · simp [List.filter_cons, hp]

/-- Specification of dailyGroups: duplicate-free keys, one key per day present
in the input, and each entry stores exactly the points of its day. -/
lemma dailyGroups_spec (pts : List GPSPoint) :
    ((dailyGroups pts).map Prod.fst).Nodup ∧
    (∀ d, d ∈ (dailyGroups pts).map Prod.fst ↔ d ∈ pts.map dayKey) ∧
    (∀ d ps, (d, ps) ∈ dailyGroups pts →
      ps = pts.filter (fun p => dayKey p = d)) := by
  obtain ⟨g1, g2, g3⟩ := dailyGroups_fold pts [] List.nodup_nil
  refine ⟨g1, fun d => by simpa using g2 d, ?_⟩
  intro d ps hmem
  have hg : groupFor (dailyGroups pts) d = pts.filter (fun p => dayKey p = d) := by
    simpa [groupFor] using g3 d
  have g1d : ((dailyGroups pts).map Prod.fst).Nodup := g1
  rw [← hg, groupFor_entry g1d hmem]

/-- Counting entries of a given day key: one when present, zero otherwise. -/
lemma countP_fst_eq (G : List (Date × List GPSPoint)) (d : Date)
    (hN : (G.map Prod.fst).Nodup) :
    G.countP (fun g => g.1 = d) = if d ∈ G.map Prod.fst then 1 else 0 := by
  induction G with
  | nil => simp
  | cons g gs ih =>
    obtain ⟨a, bs⟩ := g
    rw [List.map_cons, List.nodup_cons] at hN
    rw [List.countP_cons, ih hN.2, List.map_cons]
    by_cases h : a = d
    · subst h
      simp [hN.1]
    · have hiff : (d ∈ a :: List.map Prod.fst gs) ↔ d ∈ List.map Prod.fst gs := by
        rw [List.mem_cons]
        exact or_iff_right (fun hc => h hc.symm)
      rw [if_congr hiff rfl rfl]
      simp [h]

/-! ### C7: aging rate is floored at 1 -/

/-- C7: for every combination of surfaceTemp, emcAverage, emcPeak and
cumulativeUV inputs, including negative ones, the agingRate returned by
assessRisks is at least 1. -/
theorem agingRate_ge_one (surfaceTemp emcAverage emcPeak cumulativeUV : ℚ) :
    1 ≤ (assessRisks surfaceTemp emcAverage emcPeak cumulativeUV).agingRate :=
  le_max_left _ _

/-! ### C3: cracking-risk thresholds are strict -/

/-- C3 counterexample: at surfaceTemp exactly 40 the code yields Low, not the
Medium the claim states, and at exactly 60 it yields Medium, not High. -/
theorem crackingRisk_boundary_counterexample :
    (assessRisks 40 0 0 0).crackingRisk = RiskLevel.Low ∧
    RiskLevel.Low ≠ RiskLevel.Medium ∧
    (assessRisks 60 0 0 0).crackingRisk = RiskLevel.Medium ∧
    RiskLevel.Medium ≠ RiskLevel.High := by
  refine ⟨?_, by simp, ?_, by simp⟩ <;> norm_num [assessRisks]

/-- C3 amended: the cracking-risk comparisons are strict, so surfaceTemp
exactly 40.0 gives Low, exactly 60.0 gives Medium, 39.999 gives Low; strictly
above 60 gives High and strictly above 40 gives Medium. -/
theorem crackingRisk_boundaries :
    (assessRisks 40 0 0 0).crackingRisk = RiskLevel.Low ∧
    (assessRisks 60 0 0 0).crackingRisk = RiskLevel.Medium ∧
    (assessRisks 39.999 0 0 0).crackingRisk = RiskLevel.Low ∧
    (assessRisks 60.001 0 0 0).crackingRisk = RiskLevel.High ∧
    (assessRisks 40.001 0 0 0).crackingRisk = RiskLevel.Medium := by
  refine ⟨?_, ?_, ?_, ?_, ?_⟩ <;> norm_num [assessRisks]

/-! ### C9: the surface-temperature division is guarded only by nonzero
emissivity -/

/-- C9: for every input with nonzero emissivity the checked surface
temperature is a well-defined value equal to the unchecked one, while the
accepted input with emissivity 0 (inside the declared range, with albedo below
1 and positive solar radiation) reaches the division-guard error branch. -/
theorem surfaceTemperature_division_guard :
    (∀ (airTemp solarRadiation : ℚ) (props : SurfaceProperties),
      props.emissivity ≠ 0 →
      calculateSurfaceTemperatureChecked airTemp solarRadiation props =
        some (calculateSurfaceTemperature airTemp solarRadiation props)) ∧
    (0 ≤ woodZeroEmissivity.emissivity ∧ woodZeroEmissivity.emissivity ≤ 1 ∧
      woodZeroEmissivity.albedo < 1 ∧ (0 : ℚ) < 300 ∧
      calculateSurfaceTemperatureChecked 20 300 woodZeroEmissivity = none) := by
  constructor
  · intro airTemp solarRadiation props h
    exact if_neg (mul_ne_zero (mul_ne_zero h (by norm_num [sigma]))
      (by norm_num))
  · refine ⟨by norm_num [woodZeroEmissivity], by norm_num [woodZeroEmissivity],
      by norm_num [woodZeroEmissivity], by norm_num, ?_⟩
    norm_num [calculateSurfaceTemperatureChecked, woodZeroEmissivity]

/-- Witness for C9 at the wood preset, whose emissivity 0.90 is nonzero. -/
theorem surfaceTemperature_division_guard_witness :
    calculateSurfaceTemperatureChecked 20 300 wood =
      some (calculateSurfaceTemperature 20 300 wood) :=
  surfaceTemperature_division_guard.1 20 300 wood (by norm_num [wood])

/-! ### C5: EMC average as a function of humidity -/

/-- C5 counterexample: the EMC average at humidity 95 is strictly below the
EMC average at humidity 0, so the average is not monotonically non-decreasing
in humidity on inputs at most 95. -/
theorem emcAverage_not_monotone :
    (calculateEMC 20 95).average < (calculateEMC 20 0).average := by
  norm_num [calculateEMC]

/-- C5 amended: the EMC average is monotonically non-increasing in humidity
for humidity between 0 and 95, and is constant, equal to its value at 95, for
all humidity above 95; this holds for every temperature. -/
theorem emcAverage_humidity (t h1 h2 hHigh : ℚ) (h0 : 0 ≤ h1) (h12 : h1 ≤ h2)
    (h95 : h2 ≤ 95) (hcap : 95 ≤ hHigh) :
    (calculateEMC t h2).average ≤ (calculateEMC t h1).average ∧
    (calculateEMC t hHigh).average = (calculateEMC t 95).average := by
  constructor
  · have e1 : min h1 95 = h1 := min_eq_left (h12.trans h95)
    have e2 : min h2 95 = h2 := min_eq_left h95
    have h2n : 0 ≤ h2 := h0.trans h12
    have hd : 0 ≤ h2 - h1 := sub_nonneg.mpr h12
    have d1 : (0 : ℚ) < 100 + 1.27 * h1 + 0.0135 * h1 * h1 := by nlinarith
    have d2 : (0 : ℚ) < 100 + 1.27 * h2 + 0.0135 * h2 * h2 := by nlinarith
    have key : (330 + 0.452 * h2 + 0.00415 * h2 * h2) *
        (100 + 1.27 * h1 + 0.0135 * h1 * h1) ≤
        (330 + 0.452 * h1 + 0.00415 * h1 * h1) *
        (100 + 1.27 * h2 + 0.0135 * h2 * h2) := by
      nlinarith [mul_nonneg (mul_nonneg hd h0) h2n, mul_nonneg hd h0,
        mul_nonneg hd h2n, hd]
    simp only [calculateEMC, e1, e2]
    exact max_le_max le_rfl ((div_le_div_iff₀ d2 d1).mpr key)
  · have e : min hHigh 95 = 95 := min_eq_right hcap
    simp [calculateEMC, e]

/-- Witness for C5 amended at temperature 20, humidity pair 30 and 60, and
over-cap humidity 100. -/
theorem emcAverage_humidity_witness :
    (calculateEMC 20 60).average ≤ (calculateEMC 20 30).average ∧
    (calculateEMC 20 100).average = (calculateEMC 20 95).average :=
  emcAverage_humidity 20 30 60 100 (by norm_num) (by norm_num) (by norm_num)
    (by norm_num)

/-! ### C8: reanalysis reuses the stored records and issues no provider
calls -/

/-- C8: handleConfigChange with existing climate records leaves the stored
record set and the provider-call counter unchanged, stores the new
configuration, and replaces the analysis results by processClimateData over
the existing records under the new surface properties, a list of the same
length as the record set. -/
theorem handleConfigChange_reanalysis (s : AppState)
    (newConfig : AnalysisConfig) (h : s.climateData ≠ []) :
    (handleConfigChange s newConfig).climateData = s.climateData ∧
    (handleConfigChange s newConfig).providerCalls = s.providerCalls ∧
    (handleConfigChange s newConfig).config = newConfig ∧
    (handleConfigChange s newConfig).analysisResults =
      processClimateData s.climateData newConfig.surfaceProperties ∧
    (handleConfigChange s newConfig).analysisResults.length =
      s.climateData.length := by
  have hlen : s.climateData.length > 0 := List.length_pos.mpr h
  refine ⟨?_, ?_, ?_, ?_, ?_⟩ <;>
    simp [handleConfigChange, if_pos hlen, processClimateData]

/-- Witness for C8 on a state holding one climate record, switching wood to
metal. -/
theorem handleConfigChange_reanalysis_witness :
    (handleConfigChange state0 config1).climateData = state0.climateData ∧
    (handleConfigChange state0 config1).providerCalls = state0.providerCalls ∧
    (handleConfigChange state0 config1).config = config1 ∧
    (handleConfigChange state0 config1).analysisResults =
      processClimateData state0.climateData config1.surfaceProperties ∧
    (handleConfigChange state0 config1).analysisResults.length =
      state0.climateData.length :=
  handleConfigChange_reanalysis state0 config1 (by simp [state0])

/-! ### C6: the proximity clustering partitions its input -/

/-- C6: for every points list and every threshold, every input point index
appears in exactly one output group, none skipped, none duplicated; the point
groups are exactly the index groups read back through the input list. -/
theorem groupPointsByProximity_partition (points : List GPSPoint) (t : ℚ) :
    (∀ i : ℕ, (groupIndices points t).flatten.count i =
      if i < points.length then 1 else 0) ∧
    groupPointsByProximity points t =
      (groupIndices points t).map
        (fun g => g.map (fun i => points.getD i defaultPoint)) := by
  refine ⟨fun i => ?_, rfl⟩
  rw [(groupIndices_flatten_perm points t).count_eq]
  by_cases h : i < points.length
  · rw [if_pos h]
    exact List.count_eq_one_of_mem (List.nodup_range _) (List.mem_range.mpr h)
  · rw [if_neg h]
    exact List.count_eq_zero_of_not_mem (fun hc => h (List.mem_range.mp hc))

/-! ### C10: cluster membership is strict -/

/-- C10: every group produced by the proximity clustering is a seed index
followed by members whose squared distance from the seed is strictly below the
squared threshold; in particular a point at distance exactly the threshold
never joins the group of that seed. -/
theorem group_membership_strict (points : List GPSPoint) (t : ℚ)
    (g : List ℕ) (hg : g ∈ groupIndices points t) :
    ∃ seed js, g = seed :: js ∧
      ∀ j ∈ js, distIdxSq points seed j < t ^ 2 ∧
        distIdxSq points seed j ≠ t ^ 2 := by
  obtain ⟨-, -, -, -, -, h6⟩ := foldl_outerStep_invariant points t
    (List.range points.length) [] [] (fun x hx => List.mem_range.mp hx) rfl
    List.nodup_nil (by simp) (by simp)
  obtain ⟨a, bs, rfl, hbs⟩ := h6 g hg
  exact ⟨a, bs, rfl, fun j hj => ⟨(hbs j hj).2, ne_of_lt (hbs j hj).2⟩⟩

/-- Witness for C10 on two points at planar distance exactly 1 with threshold
1: the second point does not join the group seeded by the first. -/
theorem group_membership_strict_witness :
    ∃ seed js, ([0] : List ℕ) = seed :: js ∧
      ∀ j ∈ js, distIdxSq [pUnit0, pUnit1] seed j < 1 ^ 2 ∧
        distIdxSq [pUnit0, pUnit1] seed j ≠ 1 ^ 2 :=
  group_membership_strict [pUnit0, pUnit1] 1 [0] (by
    norm_num [groupIndices, outerStep, distIdxSq, calculateDistanceSq,
      pUnit0, pUnit1, List.range_succ])

/-! ### C4: daily aggregation -/

/-- C4: for every non-empty input, aggregateByDay emits exactly one point per
distinct calendar date present in the input; each output point carries midday
time, a date present in the input, and latitude and longitude equal to the
arithmetic mean over the samples of that date. -/
theorem aggregateByDay_correct (pts : List GPSPoint) (hne : pts ≠ []) :
    (∀ d : Date, (aggregateByDay pts).countP
        (fun q => q.timestamp = ⟨d, noonTime⟩) =
      if d ∈ pts.map dayKey then 1 else 0) ∧
    (∀ q ∈ aggregateByDay pts,
      q.timestamp.time = noonTime ∧
      q.timestamp.date ∈ pts.map dayKey ∧
      q.latitude = meanLat (pts.filter (fun p => dayKey p = q.timestamp.date)) ∧
      q.longitude = meanLng (pts.filter (fun p => dayKey p = q.timestamp.date))) := by
  obtain ⟨g1, g2, g3⟩ := dailyGroups_spec pts
  constructor
  · intro d
    rw [aggregateByDay, List.countP_map]
    have hcong : (dailyGroups pts).countP
        ((fun q : GPSPoint => decide (q.timestamp = ⟨d, noonTime⟩)) ∘
          (fun g : Date × List GPSPoint =>
            ({ timestamp := ⟨g.1, noonTime⟩, latitude := meanLat g.2,
               longitude := meanLng g.2 } : GPSPoint))) =
        (dailyGroups pts).countP (fun g => g.1 = d) :=
      List.countP_congr (fun g _ => by
        simp [Function.comp, Timestamp.mk.injEq])
    rw [hcong, countP_fst_eq _ _ g1, if_congr (g2 d) rfl rfl]
  · intro q hq
    rw [aggregateByDay] at hq
    obtain ⟨g, hgmem, rfl⟩ := List.mem_map.mp hq
    obtain ⟨dd, ps⟩ := g
    have hps := g3 dd ps hgmem
    have hdmem : dd ∈ pts.map dayKey :=
      (g2 dd).mp (List.mem_map_of_mem Prod.fst hgmem)
    subst hps
    exact ⟨rfl, hdmem, rfl, rfl⟩

/-- Witness for C4 on the one-point list: exactly one aggregated point for its
date. -/
theorem aggregateByDay_correct_witness :
    (aggregateByDay [p0]).countP (fun q => q.timestamp = ⟨d0, noonTime⟩) =
      if d0 ∈ [p0].map dayKey then 1 else 0 :=
  (aggregateByDay_correct [p0] (by simp)).1 d0

/-! ### Resolver lemmas -/

/-- The result-accumulating fold of fetchClimateData is the concatenation of
the per-cluster results. -/
lemma foldl_append_processGroup (api : Api) (draws : GPSPoint → RandomDraws) :
    ∀ (gs : List (List GPSPoint)) (acc : List ClimateData),
      gs.foldl (fun results group => results ++ processGroup api draws group)
          acc =
        acc ++ (gs.map (processGroup api draws)).flatten := by
  intro gs
  induction gs with
  | nil =>
    intro acc
    simp
  | cons g gs ih =>
    intro acc
    rw [List.foldl_cons, ih]
    simp

/-- A filterMap over a list all of whose images are present keeps the
length. -/
lemma length_filterMap_of_isSome (f : GPSPoint → Option ClimateData) :
    ∀ l : List GPSPoint, (∀ a ∈ l, (f a).isSome = true) →
      (l.filterMap f).length = l.length := by
  intro l
  induction l with
  | nil =>
    intro _
    rfl
  | cons a l ih =>
    intro h
    rcases hsome : f a with _ | b
    · exact absurd (h a (List.mem_cons_self _ _)) (by simp [hsome])
    · rw [List.filterMap_cons, hsome, List.length_cons, List.length_cons,
        ih (fun x hx => h x (List.mem_cons_of_mem _ hx))]

/-- The clusters cover exactly as many points as the input list holds. -/
lemma groupPointsByProximity_flatten_length (points : List GPSPoint) (t : ℚ) :
    (groupPointsByProximity points t).flatten.length = points.length := by
  rw [groupPointsByProximity, ← List.map_flatten, List.length_map]
  exact (groupIndices_flatten_perm points t).length_eq.trans
    (List.length_range _)

/-- Each cluster yields at most one record per member. -/
lemma processGroup_length_le (api : Api) (draws : GPSPoint → RandomDraws)
    (g : List GPSPoint) :
    (processGroup api draws g).length ≤ g.length := by
  cases h : api (calculateCenterPoint g).1 (calculateCenterPoint g).2
      (startDateOf g) (endDateOf g) with
  | none =>
    simp [processGroup, h]
  | some resp =>
    simp only [processGroup, h]
    exact List.length_filterMap_le _ _

/-- A cluster yields exactly one record per member when its request fails, or
when it succeeds and every member date carries a T2M value. -/
lemma processGroup_length_eq (api : Api) (draws : GPSPoint → RandomDraws)
    (g : List GPSPoint)
    (h : ∀ resp : ApiResponse,
      api (calculateCenterPoint g).1 (calculateCenterPoint g).2
        (startDateOf g) (endDateOf g) = some resp →
      ∀ p ∈ g, (recordFor resp p).isSome = true) :
    (processGroup api draws g).length = g.length := by
  cases hc : api (calculateCenterPoint g).1 (calculateCenterPoint g).2
      (startDateOf g) (endDateOf g) with
  | none =>
    simp [processGroup, hc]
  | some resp =>
    simp only [processGroup, hc]
    exact length_filterMap_of_isSome _ g (h resp hc)

/-- Properties of the JavaScript falsy-or fallback: a present nonzero value is
kept, an absent or zero value is replaced by the fallback. -/
lemma jsOr_spec (v : Option ℚ) (fb : ℚ) :
    (∀ x : ℚ, v = some x → x ≠ 0 → jsOr v fb = x) ∧
    ((v = none ∨ v = some 0) → jsOr v fb = fb) := by
  constructor
  · intro x hx hne
    subst hx
    simp [jsOr, hne]
  · rintro (h | h) <;> subst h <;> simp [jsOr]

/-! ### C1: record count of the climate resolver -/

/-- C1 counterexample: a successful response whose T2M mapping lacks the date
of the single input point yields an empty output, not one record per input
point. -/
theorem fetchClimateData_drop_counterexample :
    (fetchClimateData apiNoT2M draws0 [p0]).length = 0 ∧
    ([p0] : List GPSPoint).length = 1 := by
  constructor
  · norm_num [fetchClimateData, groupPointsByProximity, groupIndices,
      outerStep, processGroup, recordFor, apiNoT2M, respNoT2M,
      List.range_succ]
  · rfl

/-- C1 amended: the resolver returns at most one record per input point, and
exactly one per point whenever every successfully answered cluster carries a
T2M value for each member date (failed clusters always contribute one
synthetic record per member). -/
theorem fetchClimateData_length (api : Api) (draws : GPSPoint → RandomDraws)
    (points : List GPSPoint) :
    (fetchClimateData api draws points).length ≤ points.length ∧
    ((∀ group ∈ groupPointsByProximity points 0.1, ∀ resp : ApiResponse,
        api (calculateCenterPoint group).1 (calculateCenterPoint group).2
          (startDateOf group) (endDateOf group) = some resp →
        ∀ p ∈ group, (recordFor resp p).isSome = true) →
      (fetchClimateData api draws points).length = points.length) := by
  have hfold : fetchClimateData api draws points =
      ((groupPointsByProximity points 0.1).map
        (processGroup api draws)).flatten := by
    rw [fetchClimateData, foldl_append_processGroup]
    rfl
  constructor
  · rw [hfold, List.length_flatten, List.map_map]
    calc (List.map (List.length ∘ processGroup api draws)
          (groupPointsByProximity points 0.1)).sum
        ≤ (List.map List.length (groupPointsByProximity points 0.1)).sum :=
          List.sum_le_sum (fun g _ => processGroup_length_le api draws g)
      _ = (groupPointsByProximity points 0.1).flatten.length :=
          (List.length_flatten _).symm
      _ = points.length := groupPointsByProximity_flatten_length points 0.1
  · intro h
    rw [hfold, List.length_flatten, List.map_map]
    have hcong : List.map (List.length ∘ processGroup api draws)
        (groupPointsByProximity points 0.1) =
        List.map List.length (groupPointsByProximity points 0.1) :=
      List.map_congr_left (fun g hg =>
        processGroup_length_eq api draws g (h g hg))
    rw [hcong, ← List.length_flatten]
    exact groupPointsByProximity_flatten_length points 0.1

/-- Witness for C1 amended: with a fully populated response the single input
point yields exactly one record. -/
theorem fetchClimateData_length_witness :
    (fetchClimateData apiFull draws0 [p0]).length = 1 :=
  (fetchClimateData_length apiFull draws0 [p0]).2 (by
    intro g hg resp hresp p hp
    have he : respFull = resp := by
      simpa [apiFull] using hresp
    subst he
    simp [recordFor, respFull])

/-! ### C2: secondary-parameter fallbacks are falsy, not absence-only -/

/-- C2 counterexample: a successful response carrying a present shortwave
irradiance value equal to 0 produces a record whose solarRadiation is the
default 200, not the present value 0. -/
theorem fetchClimateData_secondary_counterexample :
    lookupParam respZeroSW.ALLSKY_SFC_SW_DWN (dayKey p0) = some 0 ∧
    (fetchClimateData apiZeroSW draws0 [p0]).map
      (fun r => r.solarRadiation) = [200] ∧
    (0 : ℚ) ≠ 200 := by
  refine ⟨rfl, ?_, by norm_num⟩
  norm_num [fetchClimateData, groupPointsByProximity, groupIndices,
    outerStep, processGroup, recordFor, apiZeroSW, respZeroSW, jsOr,
    lookupParam, List.range_succ, List.filterMap_cons, List.filterMap_nil]

/-- C2 amended: for a cluster member whose T2M value is present, each
secondary parameter equals the response value when that value is present and
nonzero, and falls back to the point-local default (maxTemperature =
temperature + 5, solarRadiation = 200, humidity = 50) when the value is absent
or equal to 0. -/
theorem recordFor_secondary_fallbacks (resp : ApiResponse) (p : GPSPoint)
    (t2m : Date → Option ℚ) (temp : ℚ)
    (h1 : resp.T2M = some t2m) (h2 : t2m (dayKey p) = some temp) :
    ∃ r : ClimateData, recordFor resp p = some r ∧
      r.temperature = temp ∧
      (∀ v : ℚ, lookupParam resp.T2M_MAX (dayKey p) = some v → v ≠ 0 →
        r.maxTemperature = v) ∧
      ((lookupParam resp.T2M_MAX (dayKey p) = none ∨
        lookupParam resp.T2M_MAX (dayKey p) = some 0) →
        r.maxTemperature = temp + 5) ∧
      (∀ v : ℚ, lookupParam resp.ALLSKY_SFC_SW_DWN (dayKey p) = some v →
        v ≠ 0 → r.solarRadiation = v) ∧
      ((lookupParam resp.ALLSKY_SFC_SW_DWN (dayKey p) = none ∨
        lookupParam resp.ALLSKY_SFC_SW_DWN (dayKey p) = some 0) →
        r.solarRadiation = 200) ∧
      (∀ v : ℚ, lookupParam resp.RH2M (dayKey p) = some v → v ≠ 0 →
        r.humidity = v) ∧
      ((lookupParam resp.RH2M (dayKey p) = none ∨
        lookupParam resp.RH2M (dayKey p) = some 0) →
        r.humidity = 50) := by
  have hrec : recordFor resp p = some
      { date := dayKey p
        latitude := p.latitude
        longitude := p.longitude
        temperature := temp
        maxTemperature := jsOr (lookupParam resp.T2M_MAX (dayKey p)) (temp + 5)
        solarRadiation :=
          jsOr (lookupParam resp.ALLSKY_SFC_SW_DWN (dayKey p)) 200
        humidity := jsOr (lookupParam resp.RH2M (dayKey p)) 50
        uvIndex := calculateUVIndex
          (jsOr (lookupParam resp.ALLSKY_SFC_UVA (dayKey p)) 0)
          (jsOr (lookupParam resp.ALLSKY_SFC_UVB (dayKey p)) 0) } := by
    simp only [recordFor, h1, h2]
  exact ⟨_, hrec, rfl,
    fun v hv hne => (jsOr_spec _ _).1 v hv hne,
    fun hv => (jsOr_spec _ _).2 hv,
    fun v hv hne => (jsOr_spec _ _).1 v hv hne,
    fun hv => (jsOr_spec _ _).2 hv,
    fun v hv hne => (jsOr_spec _ _).1 v hv hne,
    fun hv => (jsOr_spec _ _).2 hv⟩

/-- Witness for C2 amended on the fully populated response: every secondary
parameter is present and nonzero, so the record keeps the response values. -/
theorem recordFor_secondary_fallbacks_witness :
    ∃ r : ClimateData, recordFor respFull p0 = some r ∧
      r.temperature = 25 ∧
      (∀ v : ℚ, lookupParam respFull.T2M_MAX (dayKey p0) = some v → v ≠ 0 →
        r.maxTemperature = v) ∧
      ((lookupParam respFull.T2M_MAX (dayKey p0) = none ∨
        lookupParam respFull.T2M_MAX (dayKey p0) = some 0) →
        r.maxTemperature = 25 + 5) ∧
      (∀ v : ℚ, lookupParam respFull.ALLSKY_SFC_SW_DWN (dayKey p0) = some v →
        v ≠ 0 → r.solarRadiation = v) ∧
      ((lookupParam respFull.ALLSKY_SFC_SW_DWN (dayKey p0) = none ∨
        lookupParam respFull.ALLSKY_SFC_SW_DWN (dayKey p0) = some 0) →
        r.solarRadiation = 200) ∧
      (∀ v : ℚ, lookupParam respFull.RH2M (dayKey p0) = some v → v ≠ 0 →
        r.humidity = v) ∧
      ((lookupParam respFull.RH2M (dayKey p0) = none ∨
        lookupParam respFull.RH2M (dayKey p0) = some 0) →
        r.humidity = 50) :=
  recordFor_secondary_fallbacks respFull p0 (fun _ => some 25) 25 rfl rfl

end Climate
